import Mathlib

/-!
Shallow embedding of the TRACE-AI REDCap synchronization core
(`final_trace_ai_redcap_api_script.py`): the `/transfer` handler
(`transfer_data`) and the `/trigger-email` handler (`trigger_email`).

Records fetched from REDCap are JSON objects whose field values are either
strings or null; we embed them as association lists.  Python-level values
produced by `dict.get` (which can be `None`) are embedded as `PyVal`, and
Python's `str()` coercion (with `str(None) = "None"`) is embedded explicitly.
Each handler becomes a pure function of its request input and of the remote
responses it would observe; its outcome records the HTTP-level result, the
number of remote read calls issued, and the list of upsert payloads posted
to the Target store.
-/

namespace TraceAI

/-- A JSON field value carried in a REDCap record: a string or JSON null. -/
inductive JVal where
  | null : JVal
  | str (s : String) : JVal
  deriving DecidableEq

/-- A REDCap record as parsed from JSON: a string-keyed mapping. -/
abbrev JRecord := List (String × JVal)

/-- Key lookup in a parsed record (first binding wins, as in a Python dict). -/
def jrGet (d : JRecord) (k : String) : Option JVal :=
  match d.find? (fun q => q.fst == k) with
  | some q => some q.snd
  | Option.none => Option.none

/-- A Python-level value held in a handler variable or an upsert payload:
either Python `None` or a string. -/
inductive PyVal where
  | none : PyVal
  | str (s : String) : PyVal
  deriving DecidableEq

/-- Python `d.get(k)`: an absent key and a JSON null value both give `None`;
a string value is returned as is. -/
def pyGet (d : JRecord) (k : String) : PyVal :=
  match jrGet d k with
  | Option.none => PyVal.none
  | some JVal.null => PyVal.none
  | some (JVal.str s) => PyVal.str s

/-- Python `d.get(k, dflt)`: an absent key gives the default; a key present
with JSON null gives `None`; a string value is returned as is. -/
def pyGetD (d : JRecord) (k : String) (dflt : PyVal) : PyVal :=
  match jrGet d k with
  | Option.none => dflt
  | some JVal.null => PyVal.none
  | some (JVal.str s) => PyVal.str s

/-- Python `str(v)` for an optional string `v`: `str(None)` is the
four-character string `"None"`. -/
def pyStr : PyVal → String
  | PyVal.none => "None"
  | PyVal.str s => s

/-- The shared coercion `str(data.get('interested_consent', ''))` used by
both handlers (lines 56 and 154 of the source). -/
def strConsent (d : JRecord) : String :=
  pyStr (pyGetD d "interested_consent" (PyVal.str ""))

/-- The three-state consent classification applied by the template of
`transfer_data` and by the branch of `trigger_email`: the literal
comparisons `choice == "1"` / `choice == "2"` with everything else unset. -/
inductive ConsentBranch where
  | electronic : ConsentBranch
  | inPerson : ConsentBranch
  | unset : ConsentBranch
  deriving DecidableEq

/-- Classify a coerced consent string exactly as the source's if/elif/else. -/
def consentBranch (choice : String) : ConsentBranch :=
  if choice = "1" then ConsentBranch.electronic
  else if choice = "2" then ConsentBranch.inPerson
  else ConsentBranch.unset

/-- What a remote fetch (a `requests.post` returning records) can yield:
the POST itself raises (transport failure), the body fails to parse as JSON
(`res.json()` raises), or a parsed list of records. -/
inductive RemoteFetch where
  | transportError : RemoteFetch
  | unparseable : RemoteFetch
  | records (rs : List JRecord) : RemoteFetch
  deriving DecidableEq

/-- An upsert payload posted to the Target store: a string-keyed mapping of
Python values (serialized by `json.dumps`). -/
abbrev Payload := List (String × PyVal)

/-- Key lookup in an upsert payload. -/
def pLookup (p : Payload) (k : String) : Option PyVal :=
  match p.find? (fun q => q.fst == k) with
  | some q => some q.snd
  | Option.none => Option.none

/-- HTTP-level result of the `/transfer` handler. -/
inductive TransferResult where
  | invalidRequest : TransferResult
  | notFound (rid : String) : TransferResult
  | systemError : TransferResult
  | page (rid : String) (choice : String) : TransferResult
  deriving DecidableEq

/-- The Flask status code each `/transfer` return statement carries. -/
def TransferResult.httpStatus : TransferResult → Nat
  | TransferResult.invalidRequest => 400
  | TransferResult.notFound _ => 404
  | TransferResult.systemError => 500
  | TransferResult.page _ _ => 200

/-- Observable outcome of one `/transfer` invocation: the HTTP result, the
number of remote read calls issued, and the upsert payloads posted. -/
structure TransferOutcome where
  result : TransferResult
  reads : Nat
  writes : List Payload
  deriving DecidableEq

/-- The projection `clean_data_for_b` built at lines 61-71 of the source:
the fixed allow-list of fields copied from the fetched Source record, the
coerced consent string, and the two form-status markers fixed to `"2"`. -/
def clean_data_for_b (record_id : String) (data_from_a : JRecord) : Payload :=
  [("record_id", PyVal.str record_id),
   ("pt_email", pyGet data_from_a "pt_email"),
   ("pt_phone", pyGet data_from_a "pt_phone"),
   ("res_email", pyGet data_from_a "res_email"),
   ("elig_date", pyGet data_from_a "elig_date"),
   ("interested_consent", PyVal.str (strConsent data_from_a)),
   ("trace_ai_eligibility_screening_draft_complete", PyVal.str "2"),
   ("record_set_up_complete", PyVal.str "2")]

/-- The `/transfer` handler (`transfer_data`, lines 26-126).  Inputs: the
`record` query parameter (absent or a string), the response observed from
the Source fetch, and the upsert response (`Option.none` when the import
POST raises, `some s` when it returns status `s`).  Missing or empty id
returns 400 before any remote call; a transport or parse failure inside the
`try` returns 500; an empty record list returns 404 before any write; the
rendered page and its consent branch never depend on the upsert status,
which is only logged. -/
def transfer_data (record_id : Option String) (sourceFetch : RemoteFetch)
    (upsert : Option Nat) : TransferOutcome :=
  match record_id with
  | Option.none => ⟨TransferResult.invalidRequest, 0, []⟩
  | some rid =>
    if rid = "" then ⟨TransferResult.invalidRequest, 0, []⟩
    else
      match sourceFetch with
      | RemoteFetch.transportError => ⟨TransferResult.systemError, 1, []⟩
      | RemoteFetch.unparseable => ⟨TransferResult.systemError, 1, []⟩
      | RemoteFetch.records [] => ⟨TransferResult.notFound rid, 1, []⟩
      | RemoteFetch.records (d :: _) =>
        match upsert with
        | Option.none => ⟨TransferResult.systemError, 1, [clean_data_for_b rid d]⟩
        | some _ => ⟨TransferResult.page rid (strConsent d), 1, [clean_data_for_b rid d]⟩

/-- HTTP-level result of the `/trigger-email` handler.  `crash` stands for
an exception escaping the handler uncaught (Flask's generic 500). -/
inductive DispatchResult where
  | recordError : DispatchResult
  | noAction : DispatchResult
  | actionComplete : DispatchResult
  | crash : DispatchResult
  deriving DecidableEq

/-- The Flask status code each `/trigger-email` outcome carries (an
uncaught exception surfaces as Flask's generic 500). -/
def DispatchResult.httpStatus : DispatchResult → Nat
  | DispatchResult.recordError => 500
  | DispatchResult.noAction => 200
  | DispatchResult.actionComplete => 200
  | DispatchResult.crash => 500

/-- Observable outcome of one `/trigger-email` invocation: the HTTP result,
the number of remote read calls issued, the trigger payloads posted, and
whether the `REDCAP ERROR` log branch (status different from 200) ran. -/
structure DispatchOutcome where
  result : DispatchResult
  reads : Nat
  writes : List Payload
  errorLogged : Bool
  deriving DecidableEq

/-- The `record_id` form value as it lands in the trigger payload
(`request.form.get` yields `None` when the field is missing). -/
def optToPy : Option String → PyVal
  | Option.none => PyVal.none
  | some s => PyVal.str s

/-- The `/trigger-email` handler (`trigger_email`, lines 130-205).  Inputs:
the `rec_id` form field (absent or a string, never validated), the response
observed from the Target re-fetch, and the trigger-upsert response.  The
re-fetch POST is issued unconditionally; its transport or parse failure is
not caught by the `except (IndexError, KeyError)` clause and escapes as a
crash; an empty record list raises `IndexError`, caught into the 500
message.  Consent `"1"` posts `trigger_email = "1"`, consent `"2"` posts
`cons_in_person_email = "1"`, anything else returns the no-alert page with
no write.  After a write the handler logs a non-200 status but returns the
same fixed success page regardless. -/
def trigger_email (record_id : Option String) (targetFetch : RemoteFetch)
    (upsert : Option Nat) : DispatchOutcome :=
  match targetFetch with
  | RemoteFetch.transportError => ⟨DispatchResult.crash, 1, [], false⟩
  | RemoteFetch.unparseable => ⟨DispatchResult.crash, 1, [], false⟩
  | RemoteFetch.records [] => ⟨DispatchResult.recordError, 1, [], false⟩
  | RemoteFetch.records (d :: _) =>
    if strConsent d = "1" then
      let p : Payload := [("record_id", optToPy record_id), ("trigger_email", PyVal.str "1")]
      match upsert with
      | Option.none => ⟨DispatchResult.crash, 1, [p], false⟩
      | some s => ⟨DispatchResult.actionComplete, 1, [p], s != 200⟩
    else if strConsent d = "2" then
      let p : Payload := [("record_id", optToPy record_id), ("cons_in_person_email", PyVal.str "1")]
      match upsert with
      | Option.none => ⟨DispatchResult.crash, 1, [p], false⟩
      | some s => ⟨DispatchResult.actionComplete, 1, [p], s != 200⟩
    else ⟨DispatchResult.noAction, 1, [], false⟩

/-- Bridge between the raw `interested_consent` field of a fetched record
and its `str(... .get(..., ''))` coercion: for a code that is neither the
empty string nor `"None"`, the coerced value equals the code exactly when
the field is present with that string value. -/
theorem strConsent_eq_iff (d : JRecord) (c : String) (h0 : c ≠ "") (h1 : c ≠ "None") :
    strConsent d = c ↔ jrGet d "interested_consent" = some (JVal.str c) := by
  cases hg : jrGet d "interested_consent" with
  | none => simp [strConsent, pyGetD, hg, pyStr, Ne.symm h0]
  | some v =>
    cases v with
    | null => simp [strConsent, pyGetD, hg, pyStr, Ne.symm h1]
    | str s => simp [strConsent, pyGetD, hg, pyStr]

/-- C1: whenever the re-fetched Target record's coerced consent choice is
`"1"` or `"2"`, the trigger upsert issued by `trigger_email` consists of
exactly one payload, and that payload sets exactly one of the two trigger
fields `trigger_email` / `cons_in_person_email` to the activate marker
`"1"` while the other trigger field is absent from the payload entirely —
never both, never neither, and never a cleared value for the other. -/
theorem C1_exactly_one_trigger (rid : Option String) (d : JRecord)
    (rs : List JRecord) (u : Option Nat)
    (h : strConsent d = "1" ∨ strConsent d = "2") :
    ∃ p : Payload,
      (trigger_email rid (RemoteFetch.records (d :: rs)) u).writes = [p] ∧
      ((pLookup p "trigger_email" = some (PyVal.str "1") ∧
        pLookup p "cons_in_person_email" = Option.none) ∨
       (pLookup p "cons_in_person_email" = some (PyVal.str "1") ∧
        pLookup p "trigger_email" = Option.none)) := by
  rcases h with h | h
  · refine ⟨[("record_id", optToPy rid), ("trigger_email", PyVal.str "1")], ?_, ?_⟩
    · cases u <;> simp [trigger_email, h]
    · exact Or.inl ⟨rfl, rfl⟩
  · refine ⟨[("record_id", optToPy rid), ("cons_in_person_email", PyVal.str "1")], ?_, ?_⟩
    · cases u <;> simp [trigger_email, h]
    · exact Or.inr ⟨rfl, rfl⟩

/-- C1 witness: a concrete Target record with consent `"1"` satisfies the
hypothesis and the conclusion of `C1_exactly_one_trigger`. -/
theorem C1_exactly_one_trigger_witness :
    (strConsent [("interested_consent", JVal.str "1")] = "1" ∨
     strConsent [("interested_consent", JVal.str "1")] = "2") ∧
    (∃ p : Payload,
      (trigger_email (some "42")
        (RemoteFetch.records [[("interested_consent", JVal.str "1")]]) (some 200)).writes = [p] ∧
      ((pLookup p "trigger_email" = some (PyVal.str "1") ∧
        pLookup p "cons_in_person_email" = Option.none) ∨
       (pLookup p "cons_in_person_email" = some (PyVal.str "1") ∧
        pLookup p "trigger_email" = Option.none))) :=
  ⟨Or.inl (by decide),
   C1_exactly_one_trigger (some "42") [("interested_consent", JVal.str "1")] [] (some 200)
     (Or.inl (by decide))⟩

/-- C2: whenever the re-fetched Target record's `interested_consent` field
is absent or holds any value other than the strings `"1"` and `"2"`,
`trigger_email` returns the no-alert page — an HTTP 200 success, not an
error — and posts no write to the Target store. -/
theorem C2_no_action (rid : Option String) (d : JRecord) (rs : List JRecord)
    (u : Option Nat)
    (h : ∀ v : JVal, jrGet d "interested_consent" = some v →
      v ≠ JVal.str "1" ∧ v ≠ JVal.str "2") :
    (trigger_email rid (RemoteFetch.records (d :: rs)) u).result = DispatchResult.noAction ∧
    (trigger_email rid (RemoteFetch.records (d :: rs)) u).result.httpStatus = 200 ∧
    (trigger_email rid (RemoteFetch.records (d :: rs)) u).writes = [] := by
  have h1 : strConsent d ≠ "1" := by
    intro he
    exact ((h _ ((strConsent_eq_iff d "1" (by decide) (by decide)).mp he)).1) rfl
  have h2 : strConsent d ≠ "2" := by
    intro he
    exact ((h _ ((strConsent_eq_iff d "2" (by decide) (by decide)).mp he)).2) rfl
  refine ⟨?_, ?_, ?_⟩ <;> simp [trigger_email, h1, h2, DispatchResult.httpStatus]

/-- C2 witness: a concrete Target record lacking the consent field
satisfies the hypothesis and the conclusion of `C2_no_action`. -/
theorem C2_no_action_witness :
    (∀ v : JVal, jrGet ([] : JRecord) "interested_consent" = some v →
      v ≠ JVal.str "1" ∧ v ≠ JVal.str "2") ∧
    ((trigger_email (some "42") (RemoteFetch.records [[]]) (some 200)).result
        = DispatchResult.noAction ∧
     (trigger_email (some "42") (RemoteFetch.records [[]]) (some 200)).result.httpStatus = 200 ∧
     (trigger_email (some "42") (RemoteFetch.records [[]]) (some 200)).writes = []) :=
  ⟨fun v hv => by simp [jrGet] at hv,
   C2_no_action (some "42") [] [] (some 200) (fun v hv => by simp [jrGet] at hv)⟩

/-- C3: whenever `transfer_data` reaches the upsert step, the single
payload posted to Target is exactly `clean_data_for_b`: its key set is
precisely the allow-list `record_id`, `pt_email`, `pt_phone`, `res_email`,
`elig_date`, `interested_consent` plus the two status markers, both fixed
to `"2"`, with no other field; `interested_consent` carries the coerced
string (a string value, never None), and an absent source value is coerced
to the empty string. -/
theorem C3_allowlist_projection (rid : String) (h : rid ≠ "") (d : JRecord)
    (rs : List JRecord) (u : Option Nat) :
    (transfer_data (some rid) (RemoteFetch.records (d :: rs)) u).writes
        = [clean_data_for_b rid d] ∧
    (clean_data_for_b rid d).map Prod.fst =
      ["record_id", "pt_email", "pt_phone", "res_email", "elig_date",
       "interested_consent", "trace_ai_eligibility_screening_draft_complete",
       "record_set_up_complete"] ∧
    pLookup (clean_data_for_b rid d) "record_id" = some (PyVal.str rid) ∧
    pLookup (clean_data_for_b rid d) "interested_consent"
        = some (PyVal.str (strConsent d)) ∧
    pLookup (clean_data_for_b rid d) "trace_ai_eligibility_screening_draft_complete"
        = some (PyVal.str "2") ∧
    pLookup (clean_data_for_b rid d) "record_set_up_complete" = some (PyVal.str "2") ∧
    (jrGet d "interested_consent" = Option.none → strConsent d = "") := by
  refine ⟨?_, rfl, rfl, rfl, rfl, rfl, ?_⟩
  · cases u <;> simp [transfer_data, h]
  · intro hc
    simp [strConsent, pyGetD, hc, pyStr]

/-- C3 witness: the projection theorem instantiated at a concrete record
id and a concrete source record with no consent field. -/
theorem C3_allowlist_projection_witness :
    ("42" : String) ≠ "" ∧
    ((transfer_data (some "42") (RemoteFetch.records [[]]) (some 200)).writes
        = [clean_data_for_b "42" []] ∧
     (clean_data_for_b "42" []).map Prod.fst =
       ["record_id", "pt_email", "pt_phone", "res_email", "elig_date",
        "interested_consent", "trace_ai_eligibility_screening_draft_complete",
        "record_set_up_complete"] ∧
     pLookup (clean_data_for_b "42" []) "record_id" = some (PyVal.str "42") ∧
     pLookup (clean_data_for_b "42" []) "interested_consent"
         = some (PyVal.str (strConsent [])) ∧
     pLookup (clean_data_for_b "42" []) "trace_ai_eligibility_screening_draft_complete"
         = some (PyVal.str "2") ∧
     pLookup (clean_data_for_b "42" []) "record_set_up_complete" = some (PyVal.str "2") ∧
     (jrGet ([] : JRecord) "interested_consent" = Option.none → strConsent [] = "")) :=
  ⟨by decide, C3_allowlist_projection "42" (by decide) [] [] (some 200)⟩

/-- C4: once the Source fetch has returned a record, the upsert status from
Target never changes the outcome of `transfer_data`: for every status the
handler still returns the consent-branch page derived from the fetched
record with HTTP 200, and the whole observable outcome equals the one for a
status-200 upsert (the status is only logged). -/
theorem C4_upsert_status_ignored (rid : String) (h : rid ≠ "") (d : JRecord)
    (rs : List JRecord) (s : Nat) :
    (transfer_data (some rid) (RemoteFetch.records (d :: rs)) (some s)).result
        = TransferResult.page rid (strConsent d) ∧
    (transfer_data (some rid) (RemoteFetch.records (d :: rs)) (some s)).result.httpStatus
        = 200 ∧
    transfer_data (some rid) (RemoteFetch.records (d :: rs)) (some s)
        = transfer_data (some rid) (RemoteFetch.records (d :: rs)) (some 200) := by
  refine ⟨?_, ?_, ?_⟩ <;> simp [transfer_data, h, TransferResult.httpStatus]

/-- C4 witness: the status-independence theorem instantiated at a concrete
record and a failing (400) upsert status. -/
theorem C4_upsert_status_ignored_witness :
    ("42" : String) ≠ "" ∧
    ((transfer_data (some "42")
        (RemoteFetch.records [[("interested_consent", JVal.str "1")]]) (some 400)).result
        = TransferResult.page "42" (strConsent [("interested_consent", JVal.str "1")]) ∧
     (transfer_data (some "42")
        (RemoteFetch.records [[("interested_consent", JVal.str "1")]]) (some 400)).result.httpStatus
        = 200 ∧
     transfer_data (some "42")
        (RemoteFetch.records [[("interested_consent", JVal.str "1")]]) (some 400)
        = transfer_data (some "42")
            (RemoteFetch.records [[("interested_consent", JVal.str "1")]]) (some 200)) :=
  ⟨by decide,
   C4_upsert_status_ignored "42" (by decide) [("interested_consent", JVal.str "1")] [] 400⟩

/-- C5 counterexample: a dispatch that reaches the actionable write and
receives a 400 from the Target upsert returns exactly the same result as
one whose upsert succeeded — the fixed Action Complete page with HTTP 200 —
so the returned result carries no failure, no upstream status and no body,
refuting the claim that a failed write yields a distinguishable
DispatchFailed outcome. -/
theorem C5_counterexample :
    (trigger_email (some "42")
        (RemoteFetch.records [[("interested_consent", JVal.str "1")]]) (some 400)).result
      = (trigger_email (some "42")
          (RemoteFetch.records [[("interested_consent", JVal.str "1")]]) (some 200)).result ∧
    (trigger_email (some "42")
        (RemoteFetch.records [[("interested_consent", JVal.str "1")]]) (some 400)).result
      = DispatchResult.actionComplete ∧
    (trigger_email (some "42")
        (RemoteFetch.records [[("interested_consent", JVal.str "1")]]) (some 400)).result.httpStatus
      = 200 := by
  decide

/-- C5 amended: when dispatch reaches the actionable write and receives any
upsert status, a status other than 200 is only logged (the error-log branch
runs exactly when the status differs from 200); the handler returns the
same Action Complete success page with HTTP 200 regardless, and its
returned result does not distinguish a failed write from a successful
one. -/
theorem C5_failed_write_only_logged (rid : Option String) (d : JRecord)
    (rs : List JRecord) (s : Nat)
    (h : strConsent d = "1" ∨ strConsent d = "2") :
    (trigger_email rid (RemoteFetch.records (d :: rs)) (some s)).result
        = DispatchResult.actionComplete ∧
    (trigger_email rid (RemoteFetch.records (d :: rs)) (some s)).result.httpStatus = 200 ∧
    (trigger_email rid (RemoteFetch.records (d :: rs)) (some s)).errorLogged = (s != 200) ∧
    (trigger_email rid (RemoteFetch.records (d :: rs)) (some s)).result
        = (trigger_email rid (RemoteFetch.records (d :: rs)) (some 200)).result := by
  rcases h with h | h <;>
    refine ⟨?_, ?_, ?_, ?_⟩ <;>
      simp [trigger_email, h, DispatchResult.httpStatus]

/-- C5 witness: the amended theorem instantiated at a concrete record with
consent `"1"` and a failing (400) upsert status. -/
theorem C5_failed_write_only_logged_witness :
    (strConsent [("interested_consent", JVal.str "1")] = "1" ∨
     strConsent [("interested_consent", JVal.str "1")] = "2") ∧
    ((trigger_email (some "42")
        (RemoteFetch.records [[("interested_consent", JVal.str "1")]]) (some 400)).result
        = DispatchResult.actionComplete ∧
     (trigger_email (some "42")
        (RemoteFetch.records [[("interested_consent", JVal.str "1")]]) (some 400)).result.httpStatus
        = 200 ∧
     (trigger_email (some "42")
        (RemoteFetch.records [[("interested_consent", JVal.str "1")]]) (some 400)).errorLogged
        = ((400 : Nat) != 200) ∧
     (trigger_email (some "42")
        (RemoteFetch.records [[("interested_consent", JVal.str "1")]]) (some 400)).result
        = (trigger_email (some "42")
            (RemoteFetch.records [[("interested_consent", JVal.str "1")]]) (some 200)).result) :=
  ⟨Or.inl (by decide),
   C5_failed_write_only_logged (some "42") [("interested_consent", JVal.str "1")] [] 400
     (Or.inl (by decide))⟩

/-- C6 counterexample: when the Target re-fetch response cannot be parsed,
`trigger_email` does not produce the structured record-unavailable failure:
the parse exception escapes the `except (IndexError, KeyError)` clause and
the handler crashes with an unstructured exception. -/
theorem C6_counterexample :
    (trigger_email (some "42") RemoteFetch.unparseable (some 200)).result
      = DispatchResult.crash ∧
    DispatchResult.crash ≠ DispatchResult.recordError := by
  decide

/-- C6 amended: a re-fetch response that parses but contains no records is
caught and converted to the structured 500 record-details failure, but a
transport failure of any remote call inside dispatch — the re-fetch POST or
the trigger-write POST — and an unparseable re-fetch response escape the
handler as an unstructured crash rather than a typed failure. -/
theorem C6_refetch_failure_handling :
    (∀ (rid : Option String) (u : Option Nat),
      (trigger_email rid (RemoteFetch.records []) u).result = DispatchResult.recordError ∧
      (trigger_email rid (RemoteFetch.records []) u).result.httpStatus = 500 ∧
      (trigger_email rid (RemoteFetch.records []) u).writes = []) ∧
    (∀ (rid : Option String) (u : Option Nat),
      (trigger_email rid RemoteFetch.unparseable u).result = DispatchResult.crash) ∧
    (∀ (rid : Option String) (u : Option Nat),
      (trigger_email rid RemoteFetch.transportError u).result = DispatchResult.crash) ∧
    (∀ (rid : Option String) (d : JRecord) (rs : List JRecord),
      (strConsent d = "1" ∨ strConsent d = "2") →
      (trigger_email rid (RemoteFetch.records (d :: rs)) Option.none).result
        = DispatchResult.crash) := by
  refine ⟨fun rid u => ⟨rfl, rfl, rfl⟩, fun rid u => rfl, fun rid u => rfl,
    fun rid d rs h => ?_⟩
  rcases h with h | h <;> simp [trigger_email, h]

/-- C6 witness: the amended failure-handling theorem applied at a concrete
consent-`"1"` record whose trigger-write POST raises, discharging the
consent hypothesis of the write-crash conjunct there. -/
theorem C6_refetch_failure_handling_witness :
    (strConsent [("interested_consent", JVal.str "1")] = "1" ∨
     strConsent [("interested_consent", JVal.str "1")] = "2") ∧
    (trigger_email (some "42")
        (RemoteFetch.records [[("interested_consent", JVal.str "1")]]) Option.none).result
      = DispatchResult.crash :=
  ⟨Or.inl (by decide),
   C6_refetch_failure_handling.2.2.2 (some "42") [("interested_consent", JVal.str "1")] []
     (Or.inl (by decide))⟩

/-- C7 counterexample: invoking `trigger_email` with no `rec_id` form field
still issues the Target re-fetch (one remote call, not zero) and does not
return a 400 client error, refuting the claim that dispatch validates the
identifier like transfer does. -/
theorem C7_counterexample :
    (trigger_email Option.none (RemoteFetch.records []) Option.none).reads = 1 ∧
    (trigger_email Option.none (RemoteFetch.records []) Option.none).result.httpStatus
      ≠ 400 := by
  decide

/-- Auxiliary: no return statement of `trigger_email` carries a 400. -/
theorem dispatch_never_400 (r : DispatchResult) : r.httpStatus ≠ 400 := by
  cases r <;> decide

/-- C7 amended: `transfer_data` with a missing or empty record identifier
fails with the 400 invalid-request outcome and performs zero remote calls;
`trigger_email`, by contrast, performs no identifier validation — it issues
the Target re-fetch unconditionally (one read even when `rec_id` is
missing) and never returns a 400 for a missing identifier. -/
theorem C7_validation_transfer_only :
    (∀ (f : RemoteFetch) (u : Option Nat),
      transfer_data Option.none f u
        = ⟨TransferResult.invalidRequest, 0, []⟩ ∧
      transfer_data (some "") f u
        = ⟨TransferResult.invalidRequest, 0, []⟩ ∧
      TransferResult.invalidRequest.httpStatus = 400) ∧
    (∀ (rid : Option String) (f : RemoteFetch) (u : Option Nat),
      (trigger_email rid f u).reads = 1 ∧
      (trigger_email rid f u).result.httpStatus ≠ 400) := by
  refine ⟨fun f u => ⟨rfl, by simp [transfer_data], rfl⟩, fun rid f u => ⟨?_, ?_⟩⟩
  · cases f with
    | transportError => rfl
    | unparseable => rfl
    | records rs =>
      cases rs with
      | nil => rfl
      | cons d tl =>
        by_cases h1 : strConsent d = "1"
        · cases u <;> simp [trigger_email, h1]
        · by_cases h2 : strConsent d = "2"
          · cases u <;> simp [trigger_email, h1, h2]
          · simp [trigger_email, h1, h2]
  · exact dispatch_never_400 _

/-- C8: for every non-empty record identifier whose Source fetch parses to
an empty record list, `transfer_data` fails with the 404 not-found outcome,
after one remote read and with zero writes posted to the Target store. -/
theorem C8_not_found_no_write (rid : String) (h : rid ≠ "") (u : Option Nat) :
    transfer_data (some rid) (RemoteFetch.records []) u
      = ⟨TransferResult.notFound rid, 1, []⟩ ∧
    (transfer_data (some rid) (RemoteFetch.records []) u).result.httpStatus = 404 := by
  constructor <;> simp [transfer_data, h, TransferResult.httpStatus]

/-- C8 witness: the not-found theorem instantiated at record id `"99"`,
matching the spec's end-to-end scenario C. -/
theorem C8_not_found_no_write_witness :
    ("99" : String) ≠ "" ∧
    (transfer_data (some "99") (RemoteFetch.records []) (some 200)
        = ⟨TransferResult.notFound "99", 1, []⟩ ∧
     (transfer_data (some "99") (RemoteFetch.records []) (some 200)).result.httpStatus = 404) :=
  ⟨by decide, C8_not_found_no_write "99" (by decide) (some 200)⟩

/-- C9 counterexample: a source record whose `interested_consent` field is
present with JSON null is not projected verbatim — the source value is
null, but the projected payload carries the string `"None"`, a
transformation beyond verbatim copy on an allow-listed field. -/
theorem C9_counterexample :
    jrGet [("interested_consent", JVal.null)] "interested_consent" = some JVal.null ∧
    pLookup (clean_data_for_b "7" [("interested_consent", JVal.null)]) "interested_consent"
      = some (PyVal.str "None") ∧
    PyVal.str "None" ≠ pyGet [("interested_consent", JVal.null)] "interested_consent" := by
  decide

/-- C9 amended: the four allow-listed contact fields are copied exactly as
Python fetches them (a string value verbatim; an absent or null value as
None), and `interested_consent` is copied byte-identically whenever the
source value is a string; but an absent consent value becomes the empty
string and a null consent value becomes the string `"None"` — the only
transformations beyond verbatim copy besides the two fixed status
markers. -/
theorem C9_projection_verbatim (rid : String) (d : JRecord) :
    pLookup (clean_data_for_b rid d) "pt_email" = some (pyGet d "pt_email") ∧
    pLookup (clean_data_for_b rid d) "pt_phone" = some (pyGet d "pt_phone") ∧
    pLookup (clean_data_for_b rid d) "res_email" = some (pyGet d "res_email") ∧
    pLookup (clean_data_for_b rid d) "elig_date" = some (pyGet d "elig_date") ∧
    (∀ s : String, jrGet d "interested_consent" = some (JVal.str s) →
      pLookup (clean_data_for_b rid d) "interested_consent" = some (PyVal.str s)) ∧
    (jrGet d "interested_consent" = Option.none →
      pLookup (clean_data_for_b rid d) "interested_consent" = some (PyVal.str "")) ∧
    (jrGet d "interested_consent" = some JVal.null →
      pLookup (clean_data_for_b rid d) "interested_consent" = some (PyVal.str "None")) := by
  refine ⟨rfl, rfl, rfl, rfl, ?_, ?_, ?_⟩
  · intro s hs
    simp [clean_data_for_b, pLookup, strConsent, pyGetD, hs, pyStr]
  · intro hs
    simp [clean_data_for_b, pLookup, strConsent, pyGetD, hs, pyStr]
  · intro hs
    simp [clean_data_for_b, pLookup, strConsent, pyGetD, hs, pyStr]

/-- C9 witness: the amended projection theorem instantiated at a concrete
source record whose consent value is the string `"2"`, with the
string-valued consent hypothesis discharged there. -/
theorem C9_projection_verbatim_witness :
    jrGet [("interested_consent", JVal.str "2")] "interested_consent"
      = some (JVal.str "2") ∧
    pLookup (clean_data_for_b "42" [("interested_consent", JVal.str "2")]) "interested_consent"
      = some (PyVal.str "2") ∧
    pLookup (clean_data_for_b "42" [("interested_consent", JVal.str "2")]) "pt_email"
      = some (pyGet [("interested_consent", JVal.str "2")] "pt_email") :=
  ⟨by decide,
   (C9_projection_verbatim "42" [("interested_consent", JVal.str "2")]).2.2.2.2.1 "2"
     (by decide),
   (C9_projection_verbatim "42" [("interested_consent", JVal.str "2")]).1⟩

/-- C10: when the fetched record carries `interested_consent` with JSON
null, both handlers coerce it to the four-character string `"None"`, which
is classified as the unset branch: `transfer_data` renders the warning page
with choice `"None"` (not `"1"`, not `"2"`), and `trigger_email` returns
the no-alert outcome with zero writes. -/
theorem C10_null_coerced_to_None (rid : String) (h : rid ≠ "") (d : JRecord)
    (rs : List JRecord) (s : Nat) (u : Option Nat)
    (hc : jrGet d "interested_consent" = some JVal.null) :
    strConsent d = "None" ∧
    consentBranch (strConsent d) = ConsentBranch.unset ∧
    (transfer_data (some rid) (RemoteFetch.records (d :: rs)) (some s)).result
      = TransferResult.page rid "None" ∧
    (trigger_email (some rid) (RemoteFetch.records (d :: rs)) u).result
      = DispatchResult.noAction ∧
    (trigger_email (some rid) (RemoteFetch.records (d :: rs)) u).writes = [] := by
  have hs : strConsent d = "None" := by simp [strConsent, pyGetD, hc, pyStr]
  refine ⟨hs, ?_, ?_, ?_, ?_⟩
  · simp [consentBranch, hs]
  · simp [transfer_data, h, hs]
  · simp [trigger_email, hs]
  · simp [trigger_email, hs]

/-- C10 witness: the null-consent theorem instantiated at a concrete
record whose consent field holds JSON null. -/
theorem C10_null_coerced_to_None_witness :
    ("42" : String) ≠ "" ∧
    jrGet [("interested_consent", JVal.null)] "interested_consent" = some JVal.null ∧
    (strConsent [("interested_consent", JVal.null)] = "None" ∧
     consentBranch (strConsent [("interested_consent", JVal.null)]) = ConsentBranch.unset ∧
     (transfer_data (some "42")
        (RemoteFetch.records [[("interested_consent", JVal.null)]]) (some 200)).result
       = TransferResult.page "42" "None" ∧
     (trigger_email (some "42")
        (RemoteFetch.records [[("interested_consent", JVal.null)]]) (some 200)).result
       = DispatchResult.noAction ∧
     (trigger_email (some "42")
        (RemoteFetch.records [[("interested_consent", JVal.null)]]) (some 200)).writes = []) :=
  ⟨by decide, by decide,
   C10_null_coerced_to_None "42" (by decide) [("interested_consent", JVal.null)] [] 200
     (some 200) (by decide)⟩

end TraceAI
